import Mathlib

/-!
Verification of the supabase-py facade repository.

The repository ships a build script (`poetry_scripts.py`) and a test suite
(`tests/test_client.py`).  The facade implementation itself (the `supabase`
module with `create_client`, the client options, the auth-event handler and
the realtime connection logic) is not part of the supplied sources, so those
operations are modelled from the specification, as marked on each definition.
The build script and the syntactic facts of the test module are embedded
directly from the sources.
-/

namespace Supabase

/-- A header mapping, as an association list from header name to value. -/
abbrev HeaderSet := List (String × String)

/-- Look up a header value by name. -/
def getHeader (hs : HeaderSet) (k : String) : Option String :=
  match hs with
  | [] => none
  | (k', v) :: rest => if k' == k then some v else getHeader rest k

/-- Set a header: replace the first binding of `k`, or append one. -/
def setHeader (hs : HeaderSet) (k v : String) : HeaderSet :=
  match hs with
  | [] => [(k, v)]
  | (k', v') :: rest =>
    if k' == k then (k, v) :: rest else (k', v') :: setHeader rest k v

theorem getHeader_setHeader_self (hs : HeaderSet) (k v : String) :
    getHeader (setHeader hs k v) k = some v := by
  induction hs with
  | nil => simp [setHeader, getHeader]
  | cons p rest ih =>
    obtain ⟨k', v'⟩ := p
    by_cases h : k' = k
    · simp [setHeader, getHeader, h]
    · simp [setHeader, getHeader, h, ih]

theorem getHeader_setHeader_ne (hs : HeaderSet) (k k' v : String) (h : k ≠ k') :
    getHeader (setHeader hs k v) k' = getHeader hs k' := by
  induction hs with
  | nil => simp [setHeader, getHeader, h]
  | cons p rest ih =>
    obtain ⟨k0, v0⟩ := p
    by_cases h0 : k0 = k
    · subst h0
      simp [setHeader, getHeader, h]
    · simp [setHeader, getHeader, h0, ih]

theorem setHeader_idem (hs : HeaderSet) (k v : String) :
    setHeader (setHeader hs k v) k v = setHeader hs k v := by
  induction hs with
  | nil => simp [setHeader]
  | cons p rest ih =>
    obtain ⟨k0, v0⟩ := p
    by_cases h0 : k0 = k
    · simp [setHeader, h0]
    · simp [setHeader, h0, ih]

/-- A Python value passed for `url` or `key`, covering the shapes the test
suite exercises: strings, integers, `None`, and the empty dict/list. -/
inductive PyValue
  | str : String → PyValue
  | int : Int → PyValue
  | pyNone : PyValue
  | emptyDict : PyValue
  | emptyList : PyValue
deriving DecidableEq, Repr

/-- Errors of the facade: invalid construction credentials, and a
recoverable realtime connection failure carrying the reason. -/
inductive SupabaseError
  | invalidCredentials : SupabaseError
  | connectionFailed : String → SupabaseError
deriving DecidableEq, Repr

/-- Modelled from the spec: a `url` credential is valid when it is a string
of the expected URL shape (an http or https scheme); every other shape
(empty, absent, wrong type, empty collection, unexpected string shape) is
invalid. -/
def validUrl : PyValue → Bool
  | .str s => "http://".data.isPrefixOf s.data || "https://".data.isPrefixOf s.data
  | _ => false

/-- Modelled from the spec: a `key` credential is valid when it is a
non-empty string; any other shape is invalid. -/
def validKey : PyValue → Bool
  | .str s => !s.data.isEmpty
  | _ => false

/-- Modelled from the spec: a session carries the access token produced by
the auth sub-client on sign-in. -/
structure Session where
  access_token : String
deriving DecidableEq, Repr

/-- Modelled from the spec: options may supply a header overlay. -/
structure ClientOptions where
  headers : HeaderSet
deriving DecidableEq, Repr

/-- Modelled from the spec: the realtime sub-client handle, with its shared
header view, its connected flag, and a count of connect attempts. -/
structure RealtimeState where
  headers : HeaderSet
  connected : Bool
  connectAttempts : Nat
deriving DecidableEq, Repr

/-- Modelled from the spec: the facade state — the credentials, the
canonical options header set, and the header set held by each sub-client
(postgrest, auth, storage, realtime). -/
structure Client where
  url : String
  key : String
  options_headers : HeaderSet
  postgrest_headers : HeaderSet
  auth_headers : HeaderSet
  storage_headers : HeaderSet
  realtime : RealtimeState
deriving DecidableEq, Repr

/-- Modelled from the spec: apply the options overlay over the base header
set — the overlay wins on conflicting keys except it never touches
`apiKey`. -/
def mergeHeaders (base overlay : HeaderSet) : HeaderSet :=
  match overlay with
  | [] => base
  | (k, v) :: rest =>
    if k == "apiKey" then mergeHeaders base rest
    else mergeHeaders (setHeader base k v) rest

/-- Modelled from the spec: `create_client` — validate the credentials
first (failing with `InvalidCredentials` before any sub-client exists),
then compute `{apiKey: key, Authorization: "Bearer " + key}`, apply the
overlay, and construct every sub-client with the resulting header set. -/
def create_client (url key : PyValue) (options : ClientOptions) :
    Except SupabaseError Client :=
  if validUrl url && validKey key then
    match url, key with
    | .str u, .str k =>
      let merged := mergeHeaders
        [("apiKey", k), ("Authorization", "Bearer " ++ k)] options.headers
      .ok { url := u, key := k,
            options_headers := merged,
            postgrest_headers := merged,
            auth_headers := merged,
            storage_headers := merged,
            realtime := { headers := merged, connected := false,
                          connectAttempts := 0 } }
    | _, _ => .error .invalidCredentials
  else .error .invalidCredentials

/-- Replace the `Authorization` header in the canonical header set and in
every sub-client's header set, as one atomic update. -/
def updateAuthorization (c : Client) (v : String) : Client :=
  { c with
    options_headers := setHeader c.options_headers "Authorization" v,
    postgrest_headers := setHeader c.postgrest_headers "Authorization" v,
    auth_headers := setHeader c.auth_headers "Authorization" v,
    storage_headers := setHeader c.storage_headers "Authorization" v,
    realtime := { c.realtime with
                  headers := setHeader c.realtime.headers "Authorization" v } }

/-- Modelled from the spec: the facade's auth-event handler
(`_listen_to_auth_events`).  On `SIGNED_IN` or `TOKEN_REFRESHED` it
recomputes `Authorization` as `"Bearer " + session.access_token`; on
`SIGNED_OUT` it reverts to the key-based default; the header swap is the
single atomic update `updateAuthorization`.  The realtime reconnect that
the spec lists as a side effect is modelled separately by
`connect_to_realtime`, since its outcome depends on the network. -/
def onAuthEvent (c : Client) (event : String) (session : Option Session) :
    Client :=
  if event == "SIGNED_IN" || event == "TOKEN_REFRESHED" then
    match session with
    | some s => updateAuthorization c ("Bearer " ++ s.access_token)
    | none => c
  else if event == "SIGNED_OUT" then
    updateAuthorization c ("Bearer " ++ c.key)
  else c

/-- The outcome the network gives one realtime connect attempt. -/
inductive ConnectOutcome
  | success : ConnectOutcome
  | failure : String → ConnectOutcome
deriving DecidableEq, Repr

/-- Result of one `connect_to_realtime` call: the facade state after the
call, the error-level log lines it produced, and its returned value. -/
structure ConnectStep where
  client : Client
  errorLog : List String
  result : Except SupabaseError Unit
deriving Repr

/-- Modelled from the spec: `connect_to_realtime` asks the realtime
sub-client to (re)connect.  On success it succeeds silently; on failure it
logs the reason at error level and surfaces a recoverable
`ConnectionFailed` value, leaving the header state untouched so a
subsequent call can retry independently. -/
def connect_to_realtime (c : Client) (outcome : ConnectOutcome) :
    ConnectStep :=
  match outcome with
  | .success =>
    { client := { c with realtime := { c.realtime with
        connected := true,
        connectAttempts := c.realtime.connectAttempts + 1 } },
      errorLog := [],
      result := .ok () }
  | .failure reason =>
    { client := { c with realtime := { c.realtime with
        connected := false,
        connectAttempts := c.realtime.connectAttempts + 1 } },
      errorLog := ["ERROR: Connection failed: " ++ reason],
      result := .error (.connectionFailed reason) }

/-- The read-after-write consistency invariant: every sub-client's header
set holds the same `apiKey` and `Authorization` values as the facade's
canonical header set. -/
def inSync (c : Client) : Prop :=
  (getHeader c.postgrest_headers "apiKey" = getHeader c.options_headers "apiKey") ∧
  (getHeader c.postgrest_headers "Authorization" = getHeader c.options_headers "Authorization") ∧
  (getHeader c.auth_headers "apiKey" = getHeader c.options_headers "apiKey") ∧
  (getHeader c.auth_headers "Authorization" = getHeader c.options_headers "Authorization") ∧
  (getHeader c.storage_headers "apiKey" = getHeader c.options_headers "apiKey") ∧
  (getHeader c.storage_headers "Authorization" = getHeader c.options_headers "Authorization") ∧
  (getHeader c.realtime.headers "apiKey" = getHeader c.options_headers "apiKey") ∧
  (getHeader c.realtime.headers "Authorization" = getHeader c.options_headers "Authorization")

end Supabase

namespace PoetryScripts

/-- The keyword-argument names accepted by `subprocess.Popen` in the Python
standard library (a model of the stdlib: `Popen` accepts no `check`
argument — that argument belongs to `subprocess.run`). -/
def popenKeywordArgs : List String :=
  ["bufsize", "executable", "stdin", "stdout", "stderr", "preexec_fn",
   "close_fds", "shell", "cwd", "env", "universal_newlines", "startupinfo",
   "creationflags", "restore_signals", "start_new_session", "pass_fds",
   "group", "extra_groups", "user", "umask", "encoding", "errors", "text",
   "pipesize", "process_group"]

/-- Outcome of one `subprocess.call`: a `TypeError` raised before the
command runs, or the command actually executing. -/
inductive CallResult
  | typeError : String → CallResult
  | executed : String → CallResult
deriving DecidableEq, Repr

/-- Model of `subprocess.call`: it forwards its keyword arguments to
`Popen`, so a keyword `Popen` does not accept raises `TypeError` before
any command is executed. -/
def subprocess_call (cmd : String) (kwargs : List String) : CallResult :=
  match kwargs.find? (fun k => !popenKeywordArgs.contains k) with
  | some k => .typeError ("unexpected keyword argument " ++ k)
  | none => .executed cmd

/-- From `src/poetry_scripts.py`: `run_cmd` calls `subprocess.call` with
the keywords `shell=True` and `check=True`. -/
def runCmd (cmd : String) : CallResult :=
  subprocess_call cmd ["shell", "check"]

/-- From `src/poetry_scripts.py`: the three commands `run_tests` issues in
order — dependency install, then lint, then coverage. -/
def run_tests_steps : List String :=
  ["poetry install",
   "poetry run pre-commit run --all-files",
   "poetry run pytest --cov=./ --cov-report=xml --cov-report=html -vv"]

/-- Run the steps in order, stopping at the first raised `TypeError`:
returns the commands that actually executed and the first error, if any. -/
def runSteps : List String → List String × Option String
  | [] => ([], none)
  | cmd :: rest =>
    match runCmd cmd with
    | .typeError msg => ([], some msg)
    | .executed c =>
      let r := runSteps rest
      (c :: r.1, r.2)

/-- From `src/poetry_scripts.py`: `run_tests` runs the three steps. -/
def run_tests : List String × Option String := runSteps run_tests_steps

end PoetryScripts

namespace TestModule

/-- Syntactic facts of one Python function of `tests/test_client.py`. -/
structure PyFunction where
  fname : String
  isAsync : Bool
  usesAwait : Bool
  globalsUsed : List String
deriving DecidableEq, Repr

/-- The module-level names bound by the import block of
`tests/test_client.py` (lines 1–10). -/
def importedNames : List String :=
  ["os", "asyncio", "Any", "MagicMock", "AsyncMock", "pytest",
   "AsyncClient", "ClientOptions", "create_client"]

/-- From `tests/test_client.py` lines 134–141: a plain (non-async) `def`
whose body contains `await client.connect_to_realtime()` and references
the global name `logging`. -/
def test_logging_on_connection_failure : PyFunction :=
  { fname := "test_logging_on_connection_failure", isAsync := false,
    usesAwait := true,
    globalsUsed := ["os", "create_client", "logging"] }

/-- The functions defined by `tests/test_client.py`, with their `async`
and `await` syntactic facts. -/
def test_client_functions : List PyFunction :=
  [ { fname := "test_incorrect_values_dont_instantiate_client",
      isAsync := false, usesAwait := false,
      globalsUsed := ["create_client"] },
    { fname := "test_uses_key_as_authorization_header_by_default",
      isAsync := false, usesAwait := false,
      globalsUsed := ["os", "create_client"] },
    { fname := "test_supports_setting_a_global_authorization_header",
      isAsync := false, usesAwait := false,
      globalsUsed := ["os", "create_client", "ClientOptions"] },
    { fname := "test_updates_the_authorization_header_on_auth_events",
      isAsync := false, usesAwait := false,
      globalsUsed := ["os", "create_client", "MagicMock"] },
    { fname := "test_connect_to_realtime_success",
      isAsync := true, usesAwait := true,
      globalsUsed := ["os", "create_client"] },
    { fname := "test_connect_to_realtime_failure",
      isAsync := true, usesAwait := true,
      globalsUsed := ["os", "create_client", "pytest"] },
    { fname := "test_reconnect_logic",
      isAsync := true, usesAwait := true,
      globalsUsed := ["os", "create_client"] },
    test_logging_on_connection_failure ]

/-- Python syntax rule: a function definition compiles only when it does
not use `await` outside an `async def`. -/
def compiles (f : PyFunction) : Bool := !(f.usesAwait && !f.isAsync)

/-- The module loads only when every function definition in it compiles
(a `SyntaxError` anywhere aborts the import of the whole module). -/
def moduleLoads : Bool := test_client_functions.all compiles

/-- A function body (and hence its final assertion) can only run when the
module loads and the function itself compiled. -/
def assertionReached (f : PyFunction) : Bool := moduleLoads && compiles f

end TestModule

namespace Supabase

theorem getHeader_mergeHeaders_apiKey (overlay base : HeaderSet) :
    getHeader (mergeHeaders base overlay) "apiKey" = getHeader base "apiKey" := by
  induction overlay generalizing base with
  | nil => rfl
  | cons p rest ih =>
    obtain ⟨k, v⟩ := p
    by_cases h : k = "apiKey"
    · simp [mergeHeaders, h, ih]
    · have hb : (k == "apiKey") = false := by simpa using h
      rw [mergeHeaders, hb]
      simp only [Bool.false_eq_true, if_false, ih,
        getHeader_setHeader_ne _ _ _ _ h]

/-- The header set every sub-client receives at construction. -/
def constructedHeaders (k : String) (opts : ClientOptions) : HeaderSet :=
  mergeHeaders [("apiKey", k), ("Authorization", "Bearer " ++ k)] opts.headers

theorem create_client_ok (u k : String) (opts : ClientOptions) (c : Client)
    (h : create_client (.str u) (.str k) opts = .ok c) :
    c = { url := u, key := k,
          options_headers := constructedHeaders k opts,
          postgrest_headers := constructedHeaders k opts,
          auth_headers := constructedHeaders k opts,
          storage_headers := constructedHeaders k opts,
          realtime := { headers := constructedHeaders k opts,
                        connected := false, connectAttempts := 0 } } := by
  unfold create_client at h
  split at h
  · exact (Except.ok.inj h).symm
  · exact absurd h (by simp)

theorem getHeader_constructedHeaders_apiKey (k : String) (opts : ClientOptions) :
    getHeader (constructedHeaders k opts) "apiKey" = some k := by
  rw [constructedHeaders, getHeader_mergeHeaders_apiKey]
  simp [getHeader]

/-- C4: after a successful construction with key `k` and no options
overlay, the facade's options headers and every sub-client's header set
(postgrest, auth, storage) hold `apiKey = k` and
`Authorization = "Bearer " ++ k`. -/
theorem default_headers_after_construction (u k : String) (c : Client)
    (h : create_client (.str u) (.str k) ⟨[]⟩ = .ok c) :
    getHeader c.options_headers "apiKey" = some k ∧
    getHeader c.options_headers "Authorization" = some ("Bearer " ++ k) ∧
    getHeader c.postgrest_headers "apiKey" = some k ∧
    getHeader c.postgrest_headers "Authorization" = some ("Bearer " ++ k) ∧
    getHeader c.auth_headers "apiKey" = some k ∧
    getHeader c.auth_headers "Authorization" = some ("Bearer " ++ k) ∧
    getHeader c.storage_headers "apiKey" = some k ∧
    getHeader c.storage_headers "Authorization" = some ("Bearer " ++ k) := by
  rw [create_client_ok u k ⟨[]⟩ c h]
  have e1 : ("apiKey" == "Authorization") = false := by decide
  simp [mergeHeaders, getHeader, e1]

/-- The client produced by constructing with url `https://x.co`, key `k`
and no overlay; used to instantiate the construction theorems. -/
def exampleClient : Client :=
  { url := "https://x.co", key := "k",
    options_headers := [("apiKey", "k"), ("Authorization", "Bearer k")],
    postgrest_headers := [("apiKey", "k"), ("Authorization", "Bearer k")],
    auth_headers := [("apiKey", "k"), ("Authorization", "Bearer k")],
    storage_headers := [("apiKey", "k"), ("Authorization", "Bearer k")],
    realtime := { headers := [("apiKey", "k"), ("Authorization", "Bearer k")],
                  connected := false, connectAttempts := 0 } }

/-- C4 witness at url `https://x.co`, key `k`. -/
theorem default_headers_after_construction_witness :
    getHeader exampleClient.options_headers "apiKey" = some "k" ∧
    getHeader exampleClient.options_headers "Authorization" = some ("Bearer " ++ "k") ∧
    getHeader exampleClient.postgrest_headers "apiKey" = some "k" ∧
    getHeader exampleClient.postgrest_headers "Authorization" = some ("Bearer " ++ "k") ∧
    getHeader exampleClient.auth_headers "apiKey" = some "k" ∧
    getHeader exampleClient.auth_headers "Authorization" = some ("Bearer " ++ "k") ∧
    getHeader exampleClient.storage_headers "apiKey" = some "k" ∧
    getHeader exampleClient.storage_headers "Authorization" = some ("Bearer " ++ "k") :=
  default_headers_after_construction "https://x.co" "k" exampleClient rfl

/-- C5: after a successful construction with key `k` and an options
overlay setting `Authorization` to `A`, every header set holds
`Authorization = A` (the overlay wins) while `apiKey` is still `k` (the
overlay never touches it). -/
theorem global_authorization_overlay (u k A : String) (c : Client)
    (h : create_client (.str u) (.str k) ⟨[("Authorization", A)]⟩ = .ok c) :
    getHeader c.options_headers "apiKey" = some k ∧
    getHeader c.options_headers "Authorization" = some A ∧
    getHeader c.postgrest_headers "apiKey" = some k ∧
    getHeader c.postgrest_headers "Authorization" = some A ∧
    getHeader c.auth_headers "apiKey" = some k ∧
    getHeader c.auth_headers "Authorization" = some A ∧
    getHeader c.storage_headers "apiKey" = some k ∧
    getHeader c.storage_headers "Authorization" = some A := by
  rw [create_client_ok u k ⟨[("Authorization", A)]⟩ c h]
  have e1 : ("apiKey" == "Authorization") = false := by decide
  have e2 : ("Authorization" == "apiKey") = false := by decide
  simp [constructedHeaders, mergeHeaders, setHeader, getHeader, e1, e2]

/-- The client produced by constructing with url `https://x.co`, key `k`
and an overlay setting `Authorization` to `Bearer secretuserjwt`. -/
def exampleOverlayClient : Client :=
  { url := "https://x.co", key := "k",
    options_headers := [("apiKey", "k"), ("Authorization", "Bearer secretuserjwt")],
    postgrest_headers := [("apiKey", "k"), ("Authorization", "Bearer secretuserjwt")],
    auth_headers := [("apiKey", "k"), ("Authorization", "Bearer secretuserjwt")],
    storage_headers := [("apiKey", "k"), ("Authorization", "Bearer secretuserjwt")],
    realtime := { headers := [("apiKey", "k"), ("Authorization", "Bearer secretuserjwt")],
                  connected := false, connectAttempts := 0 } }

/-- C5 witness at url `https://x.co`, key `k`, overlay
`Authorization = "Bearer secretuserjwt"`. -/
theorem global_authorization_overlay_witness :
    getHeader exampleOverlayClient.options_headers "apiKey" = some "k" ∧
    getHeader exampleOverlayClient.options_headers "Authorization" = some "Bearer secretuserjwt" ∧
    getHeader exampleOverlayClient.postgrest_headers "apiKey" = some "k" ∧
    getHeader exampleOverlayClient.postgrest_headers "Authorization" = some "Bearer secretuserjwt" ∧
    getHeader exampleOverlayClient.auth_headers "apiKey" = some "k" ∧
    getHeader exampleOverlayClient.auth_headers "Authorization" = some "Bearer secretuserjwt" ∧
    getHeader exampleOverlayClient.storage_headers "apiKey" = some "k" ∧
    getHeader exampleOverlayClient.storage_headers "Authorization" = some "Bearer secretuserjwt" :=
  global_authorization_overlay "https://x.co" "k" "Bearer secretuserjwt"
    exampleOverlayClient rfl

theorem onAuthEvent_signed_in (c : Client) (s : Session) :
    onAuthEvent c "SIGNED_IN" (some s) =
      updateAuthorization c ("Bearer " ++ s.access_token) := by
  simp [onAuthEvent]

theorem updateAuthorization_idem (c : Client) (v : String) :
    updateAuthorization (updateAuthorization c v) v = updateAuthorization c v := by
  simp [updateAuthorization, setHeader_idem]

/-- C1: after a successful construction with key `k`, invoking the
auth-event handler with `SIGNED_IN` and a session whose access token is
`T` leaves `Authorization = "Bearer " ++ T` and `apiKey = k` in the
facade's options headers and in every sub-client's header set, and firing
the same event again with the same session leaves the state unchanged. -/
theorem auth_event_updates_authorization (u k T : String)
    (opts : ClientOptions) (c : Client)
    (h : create_client (.str u) (.str k) opts = .ok c) :
    getHeader (onAuthEvent c "SIGNED_IN" (some ⟨T⟩)).options_headers "Authorization"
      = some ("Bearer " ++ T) ∧
    getHeader (onAuthEvent c "SIGNED_IN" (some ⟨T⟩)).postgrest_headers "Authorization"
      = some ("Bearer " ++ T) ∧
    getHeader (onAuthEvent c "SIGNED_IN" (some ⟨T⟩)).auth_headers "Authorization"
      = some ("Bearer " ++ T) ∧
    getHeader (onAuthEvent c "SIGNED_IN" (some ⟨T⟩)).storage_headers "Authorization"
      = some ("Bearer " ++ T) ∧
    getHeader (onAuthEvent c "SIGNED_IN" (some ⟨T⟩)).options_headers "apiKey"
      = some k ∧
    getHeader (onAuthEvent c "SIGNED_IN" (some ⟨T⟩)).postgrest_headers "apiKey"
      = some k ∧
    getHeader (onAuthEvent c "SIGNED_IN" (some ⟨T⟩)).auth_headers "apiKey"
      = some k ∧
    getHeader (onAuthEvent c "SIGNED_IN" (some ⟨T⟩)).storage_headers "apiKey"
      = some k ∧
    onAuthEvent (onAuthEvent c "SIGNED_IN" (some ⟨T⟩)) "SIGNED_IN" (some ⟨T⟩)
      = onAuthEvent c "SIGNED_IN" (some ⟨T⟩) := by
  rw [create_client_ok u k opts c h]
  have hne : "Authorization" ≠ "apiKey" := by decide
  simp only [onAuthEvent_signed_in, updateAuthorization]
  refine ⟨?_, ?_, ?_, ?_, ?_, ?_, ?_, ?_, ?_⟩ <;>
    simp [setHeader_idem, getHeader_setHeader_self,
      getHeader_setHeader_ne _ _ _ _ hne, getHeader_constructedHeaders_apiKey]

/-- C1 witness: the constructed example client, signed in with access
token `secretuserjwt`. -/
theorem auth_event_updates_authorization_witness :
    getHeader (onAuthEvent exampleClient "SIGNED_IN" (some ⟨"secretuserjwt"⟩)).options_headers "Authorization"
      = some ("Bearer " ++ "secretuserjwt") ∧
    getHeader (onAuthEvent exampleClient "SIGNED_IN" (some ⟨"secretuserjwt"⟩)).postgrest_headers "Authorization"
      = some ("Bearer " ++ "secretuserjwt") ∧
    getHeader (onAuthEvent exampleClient "SIGNED_IN" (some ⟨"secretuserjwt"⟩)).auth_headers "Authorization"
      = some ("Bearer " ++ "secretuserjwt") ∧
    getHeader (onAuthEvent exampleClient "SIGNED_IN" (some ⟨"secretuserjwt"⟩)).storage_headers "Authorization"
      = some ("Bearer " ++ "secretuserjwt") ∧
    getHeader (onAuthEvent exampleClient "SIGNED_IN" (some ⟨"secretuserjwt"⟩)).options_headers "apiKey"
      = some "k" ∧
    getHeader (onAuthEvent exampleClient "SIGNED_IN" (some ⟨"secretuserjwt"⟩)).postgrest_headers "apiKey"
      = some "k" ∧
    getHeader (onAuthEvent exampleClient "SIGNED_IN" (some ⟨"secretuserjwt"⟩)).auth_headers "apiKey"
      = some "k" ∧
    getHeader (onAuthEvent exampleClient "SIGNED_IN" (some ⟨"secretuserjwt"⟩)).storage_headers "apiKey"
      = some "k" ∧
    onAuthEvent (onAuthEvent exampleClient "SIGNED_IN" (some ⟨"secretuserjwt"⟩)) "SIGNED_IN" (some ⟨"secretuserjwt"⟩)
      = onAuthEvent exampleClient "SIGNED_IN" (some ⟨"secretuserjwt"⟩) :=
  auth_event_updates_authorization "https://x.co" "k" "secretuserjwt" ⟨[]⟩
    exampleClient rfl

theorem inSync_updateAuthorization (c : Client) (v : String) (h : inSync c) :
    inSync (updateAuthorization c v) := by
  obtain ⟨h1, h2, h3, h4, h5, h6, h7, h8⟩ := h
  have hne : "Authorization" ≠ "apiKey" := by decide
  unfold inSync updateAuthorization
  refine ⟨?_, ?_, ?_, ?_, ?_, ?_, ?_, ?_⟩ <;>
    simp [getHeader_setHeader_self, getHeader_setHeader_ne _ _ _ _ hne,
      h1, h3, h5, h7]

theorem inSync_onAuthEvent (c : Client) (event : String)
    (session : Option Session) (h : inSync c) :
    inSync (onAuthEvent c event session) := by
  unfold onAuthEvent
  split
  · cases session with
    | none => exact h
    | some s => exact inSync_updateAuthorization c _ h
  · split
    · exact inSync_updateAuthorization c _ h
    · exact h

theorem inSync_connect_to_realtime (c : Client) (o : ConnectOutcome)
    (h : inSync c) : inSync ((connect_to_realtime c o).client) := by
  cases o <;> simpa [connect_to_realtime, inSync] using h

/-- C6: the read-after-write consistency invariant — every sub-client's
header set agrees with the facade's canonical header set on `apiKey` and
`Authorization` — is established by construction and preserved by every
facade operation (`onAuthEvent` and `connect_to_realtime`). -/
theorem header_sync_invariant :
    (∀ (u k : String) (opts : ClientOptions) (c : Client),
      create_client (.str u) (.str k) opts = .ok c → inSync c) ∧
    (∀ (c : Client) (event : String) (session : Option Session),
      inSync c → inSync (onAuthEvent c event session)) ∧
    (∀ (c : Client) (o : ConnectOutcome),
      inSync c → inSync ((connect_to_realtime c o).client)) := by
  refine ⟨?_, inSync_onAuthEvent, inSync_connect_to_realtime⟩
  intro u k opts c h
  rw [create_client_ok u k opts c h]
  exact ⟨rfl, rfl, rfl, rfl, rfl, rfl, rfl, rfl⟩

/-- C6 witness: the invariant holds for the example client after a
sign-in event followed by a successful realtime connect. -/
theorem header_sync_invariant_witness :
    inSync ((connect_to_realtime
      (onAuthEvent exampleClient "SIGNED_IN" (some ⟨"secretuserjwt"⟩))
      ConnectOutcome.success).client) :=
  header_sync_invariant.2.2 _ ConnectOutcome.success
    (header_sync_invariant.2.1 _ "SIGNED_IN" (some ⟨"secretuserjwt"⟩)
      (header_sync_invariant.1 "https://x.co" "k" ⟨[]⟩ exampleClient rfl))

/-- C3: for every credential pair of an invalid shape (empty string,
absent, wrong type, empty collection, unexpected string shape — anything
failing validation), `create_client` fails with `InvalidCredentials` and
no client value (hence no sub-client) is ever produced. -/
theorem create_client_rejects_invalid (url key : PyValue)
    (opts : ClientOptions)
    (h : ¬(validUrl url = true ∧ validKey key = true)) :
    create_client url key opts = .error .invalidCredentials ∧
    ∀ c : Client, create_client url key opts ≠ .ok c := by
  have hb : (validUrl url && validKey key) = false := by
    cases hu : validUrl url with
    | false => simp [hu]
    | true =>
      cases hk : validKey key with
      | false => simp [hu, hk]
      | true => exact absurd ⟨hu, hk⟩ h
  have he : create_client url key opts = .error .invalidCredentials := by
    unfold create_client
    rw [hb]
    rfl
  exact ⟨he, fun c hc => by rw [he] at hc; cases hc⟩

/-- C3 witness: the integer url `139` paired with the empty-string key is
rejected. -/
theorem create_client_rejects_invalid_witness :
    create_client (.int 139) (.str "") ⟨[]⟩ = .error .invalidCredentials :=
  (create_client_rejects_invalid (.int 139) (.str "") ⟨[]⟩ (by decide)).1

/-- C2: when the realtime connect attempt fails with some reason, the
facade logs one error line containing that reason, surfaces the failure
as the recoverable `ConnectionFailed` value rather than an unrecoverable
error, leaves the facade's credential and header state untouched, and a
subsequent call can still run and succeed. -/
theorem connect_to_realtime_failure_recoverable (c : Client) (reason : String) :
    (connect_to_realtime c (.failure reason)).errorLog =
      ["ERROR: Connection failed: " ++ reason] ∧
    ("ERROR: Connection failed: " ++ reason =
      "ERROR: Connection failed: " ++ reason ++ "") ∧
    (connect_to_realtime c (.failure reason)).result =
      .error (.connectionFailed reason) ∧
    (connect_to_realtime c (.failure reason)).client.url = c.url ∧
    (connect_to_realtime c (.failure reason)).client.key = c.key ∧
    (connect_to_realtime c (.failure reason)).client.options_headers =
      c.options_headers ∧
    (connect_to_realtime c (.failure reason)).client.postgrest_headers =
      c.postgrest_headers ∧
    (connect_to_realtime c (.failure reason)).client.auth_headers =
      c.auth_headers ∧
    (connect_to_realtime c (.failure reason)).client.storage_headers =
      c.storage_headers ∧
    (connect_to_realtime
      (connect_to_realtime c (.failure reason)).client .success).result =
      .ok () := by
  refine ⟨rfl, by simp, rfl, rfl, rfl, rfl, rfl, rfl, rfl, rfl⟩

/-- C7: when the first connect attempt fails and the second succeeds, the
realtime sub-client sees exactly two connect attempts and ends
connected, with the second call returning success. -/
theorem connect_to_realtime_retry (c : Client) (reason : String) :
    ((connect_to_realtime
        (connect_to_realtime c (.failure reason)).client .success).client.realtime.connectAttempts
      = c.realtime.connectAttempts + 2) ∧
    ((connect_to_realtime
        (connect_to_realtime c (.failure reason)).client .success).client.realtime.connected
      = true) ∧
    ((connect_to_realtime
        (connect_to_realtime c (.failure reason)).client .success).result = .ok ()) := by
  refine ⟨rfl, rfl, rfl⟩

/-- C8: a successful `connect_to_realtime` invocation performs exactly one
connect attempt on the realtime sub-client and leaves it connected. -/
theorem connect_to_realtime_success_once (c : Client) :
    ((connect_to_realtime c .success).client.realtime.connectAttempts
      = c.realtime.connectAttempts + 1) ∧
    ((connect_to_realtime c .success).client.realtime.connected = true) ∧
    ((connect_to_realtime c .success).result = .ok ()) := by
  refine ⟨rfl, rfl, rfl⟩

end Supabase

namespace PoetryScripts

/-- C9: for every command string, `run_cmd` raises `TypeError` before the
command executes, because it passes the keyword `check` to
`subprocess.call`, which forwards it to `Popen`, which does not accept
it; consequently `run_tests` raises at its first step (the dependency
install) with no command executed, never reaching the lint or coverage
steps. -/
theorem runCmd_always_raises_type_error (cmd : String) :
    runCmd cmd = .typeError "unexpected keyword argument check" ∧
    run_tests = ([], some "unexpected keyword argument check") :=
  ⟨rfl, rfl⟩

end PoetryScripts

namespace TestModule

/-- C10: the logging-on-connection-failure check never executes —
`test_logging_on_connection_failure` uses `await` in a non-async `def`,
a syntax error that makes the function fail to compile and aborts the
load of the whole test module, so its assertion is never reached; it also
references the global name `logging`, which the module never imports. -/
theorem logging_assertion_never_runs :
    compiles test_logging_on_connection_failure = false ∧
    moduleLoads = false ∧
    assertionReached test_logging_on_connection_failure = false ∧
    importedNames.contains "logging" = false ∧
    "logging" ∈ test_logging_on_connection_failure.globalsUsed := by
  refine ⟨rfl, rfl, rfl, rfl, by decide⟩

end TestModule
